import Mathlib

/-
Verification of the View Ledger of the p1rsu/me repository: the visit
recorder, count reader, change notifier and visibility resynchronization
logic of the ViewCounter component, in its three source forms:

  * src/src/components/ViewCounter.tsx — Variant A (sentinel counter row),
    read-then-write increment, no session guard, no realtime channel;
  * src/unnamed/part_004 — Variant A with the hasIncrementedRef session
    guard, an UPDATE realtime channel and visibility handling;
  * src/unnamed/part_005 — Variant B (visit log), unconditional insert with
    the session guard, an INSERT realtime channel and visibility handling.

The supabase client never throws on failure: every call resolves to a
record whose data (or count) field is null on failure, and the components
destructure only that field. The embedding therefore models each store
call by its observable result: an Option Nat read result (none meaning
the row is missing or the store unreachable) or a Bool success flag, and
each operation is a total Lean function on explicit state, additionally
reporting how many durable writes it issued.
-/

namespace ViewLedger

/-- Variant A store content: the view_count field of the sentinel row when
the row is present and the store reachable; none when the row is missing or
the store unreachable (supabase .single() resolves with data null). -/
abbrev StoreA := Option Nat

/-- Per-session component state of the guarded ViewCounter versions
(part_004 and part_005): the displayed count (useState, initially null) and
the hasIncrementedRef guard flag (useRef, initially false). -/
structure SessionState where
  viewCount : Option Nat
  hasIncremented : Bool
deriving DecidableEq, Repr

/-- The fresh per-session state: viewCount starts as null (useState null)
and the guard flag starts false (useRef false). -/
def initialSession : SessionState :=
  { viewCount := none, hasIncremented := false }

/-- Embedding of incrementAndFetch of src/unnamed/part_004 (Variant A,
guarded). If the guard flag is set the call returns at once. Otherwise it
sets the flag, reads the sentinel row; if the read yields a row it writes
row + 1 back and displays row + 1, else it does nothing further. The result
is (new session state, new store content, number of durable writes). -/
def incrementAndFetch (s : SessionState) (store : StoreA) :
    SessionState × StoreA × Nat :=
  if s.hasIncremented then
    (s, store, 0)
  else
    match store with
    | some c =>
        let newCount := c + 1
        ({ viewCount := some newCount, hasIncremented := true },
          some newCount, 1)
    | none =>
        ({ s with hasIncremented := true }, store, 0)

/-- Embedding of incrementAndFetch of src/src/components/ViewCounter.tsx
(the checked-in component): the same read-then-write increment but with no
guard flag, so every invocation that reads a row performs a durable write.
The result is (new displayed count, new store content, durable writes). -/
def incrementAndFetchCurrent (view : Option Nat) (store : StoreA) :
    Option Nat × StoreA × Nat :=
  match store with
  | some c => (some (c + 1), some (c + 1), 1)
  | none => (view, store, 0)

/-- Embedding of fetchViewCount of src/unnamed/part_004 (Variant A): reads
the sentinel row; on a row it displays its view_count, on failure (data
null) it leaves the displayed count unchanged. -/
def fetchViewCountA (view : Option Nat) (readResult : Option Nat) :
    Option Nat :=
  match readResult with
  | some c => some c
  | none => view

/-- Embedding of fetchViewCount of src/unnamed/part_005 (Variant B): asks
the store for the exact row cardinality of the visit table; on success
(count not null) it displays the cardinality, on failure it leaves the
displayed count unchanged. -/
def fetchViewCountB (view : Option Nat) (countResult : Option Nat) :
    Option Nat :=
  match countResult with
  | some c => some c
  | none => view

/-- Embedding of recordViewAndFetch of src/unnamed/part_005 (Variant B,
guarded). If the guard flag is set the call returns at once. Otherwise it
sets the flag, issues one unconditional insert into the visit table (the
insert lands iff insertOk; its result is ignored by the source), then
fetches the cardinality (which succeeds iff countOk, returning the
post-insert cardinality). card is the row cardinality of the visit table.
The result is (new session state, new cardinality, durable writes). -/
def recordViewAndFetch (s : SessionState) (card : Nat)
    (insertOk : Bool) (countOk : Bool) : SessionState × Nat × Nat :=
  if s.hasIncremented then
    (s, card, 0)
  else
    let card1 := if insertOk then card + 1 else card
    let writes := if insertOk then 1 else 0
    let view1 := if countOk then some card1 else s.viewCount
    ({ viewCount := view1, hasIncremented := true }, card1, writes)

/-- Embedding of the UPDATE-event callback of setupRealtimeChannel in
src/unnamed/part_004: the callback body is
setViewCount(payload.new.view_count), so the new view_count field of the
event payload is delivered verbatim and no fetch is issued. The result is
(new displayed count, number of fetch calls issued by the callback). -/
def onUpdateEvent (payloadViewCount : Nat) (_view : Option Nat) :
    Option Nat × Nat :=
  (some payloadViewCount, 0)

/-- Embedding of the INSERT-event callback of setupRealtimeChannel in
src/unnamed/part_005: setViewCount(prev not null then prev + 1 else null),
incrementing an already-held baseline and ignoring the event otherwise. -/
def onInsertEvent (prev : Option Nat) : Option Nat :=
  match prev with
  | some n => some (n + 1)
  | none => none

/-- Subscription bookkeeping of one component instance: channelRef is the
channel created by the latest setupRealtimeChannel call (useRef, initially
null), and active is the list of channels of this instance currently
subscribed on the supabase client. Channels are identified by Nat. -/
structure ChannelState where
  channelRef : Option Nat
  active : List Nat
deriving DecidableEq, Repr

/-- Embedding of supabase.removeChannel restricted to the channels of one
instance: tears the given channel down, removing it from the active list. -/
def removeChannel (active : List Nat) (c : Nat) : List Nat :=
  active.erase c

/-- Embedding of setupRealtimeChannel (identical channel lifecycle in
src/unnamed/part_004 and src/unnamed/part_005): if channelRef holds a
channel, that channel is first removed; then a fresh channel is created,
subscribed, and stored in channelRef. -/
def setupRealtimeChannel (st : ChannelState) (fresh : Nat) : ChannelState :=
  let cleaned :=
    match st.channelRef with
    | some c => removeChannel st.active c
    | none => st.active
  { channelRef := some fresh, active := fresh :: cleaned }

/-- A single underlying store event is delivered once to every currently
subscribed channel of the instance, hence this many times in total. -/
def deliveries (st : ChannelState) : Nat :=
  st.active.length

/-- The bookkeeping invariant of a component instance: the subscribed
channels are exactly the one held in channelRef, if any. It holds at mount
(channelRef null, no channel subscribed). -/
def channelInvariant (st : ChannelState) : Prop :=
  match st.channelRef with
  | some c => st.active = [c]
  | none => st.active = []

instance (st : ChannelState) : Decidable (channelInvariant st) := by
  unfold channelInvariant
  cases st.channelRef <;> infer_instance

/-- The two resynchronization actions the visibility handler can issue. -/
inductive SyncAction where
  | fetchCount
  | resubscribe
deriving DecidableEq, Repr

/-- Embedding of handleVisibilityChange (identical in src/unnamed/part_004
and src/unnamed/part_005): on a visibilitychange event it returns at once
when the document is hidden, and otherwise calls fetchViewCount and then
setupRealtimeChannel, in that order. The result lists the actions issued,
in program order. -/
def handleVisibilityChange (hidden : Bool) : List SyncAction :=
  if hidden then []
  else [SyncAction.fetchCount, SyncAction.resubscribe]

/-- Embedding of the render path shared by all three component versions:
when the displayed count is null the component renders nothing (returns
null before any JSX), and otherwise renders the counter text. -/
def renderViewCounter (viewCount : Option Nat) : Option String :=
  match viewCount with
  | none => none
  | some n => some (toString n ++ " views")

/-- Store effect of one recorded visit by a fresh session under Variant A
(part_004 and ViewCounter.tsx perform the same read-then-write increment on
the sentinel row): the store component of incrementAndFetch from a fresh
session. -/
def recordVisitStoreA (store : StoreA) : StoreA :=
  (incrementAndFetch initialSession store).2.1

/-- Store effect of one recorded visit by a fresh session under Variant B:
the cardinality component of recordViewAndFetch from a fresh session with
the store reachable. Each visit is one atomic independent insert, so a
concurrent schedule of visits is some sequence of these inserts. -/
def recordVisitStoreB (card : Nat) : Nat :=
  (recordViewAndFetch initialSession card true true).2.1

/-- Total durable writes of two consecutive guarded Variant A recorder
calls within one session, threading session and store state. -/
def twoCallsA (store : StoreA) : Nat :=
  let r1 := incrementAndFetch initialSession store
  let r2 := incrementAndFetch r1.1 r1.2.1
  r1.2.2 + r2.2.2

/-- Total durable writes of two consecutive guarded Variant B recorder
calls within one session, threading session and cardinality. -/
def twoCallsB (card : Nat) : Nat :=
  let r1 := recordViewAndFetch initialSession card true true
  let r2 := recordViewAndFetch r1.1 r1.2.1 true true
  r1.2.2 + r2.2.2

/-- Total durable writes of two consecutive calls of the unguarded
recorder of the checked-in ViewCounter.tsx within one session. -/
def twoCallsCurrent (store : StoreA) : Nat :=
  let r1 := incrementAndFetchCurrent none store
  let r2 := incrementAndFetchCurrent r1.1 r1.2.1
  r1.2.2 + r2.2.2

/-- C1 counterexample: the claim asserts that in every implementation in
the repository, including the checked-in ViewCounter.tsx, two recorder
calls in one session produce exactly one durable write. The checked-in
ViewCounter.tsx has no hasIncrementedRef guard: from a reachable sentinel
row holding 0, two calls in the same session produce two durable writes,
not one. -/
theorem C1_counterexample :
    twoCallsCurrent (some 0) = 2 ∧ twoCallsCurrent (some 0) ≠ 1 := by
  decide

/-- C1 amended: in the guarded implementations (incrementAndFetch of
part_004 and recordViewAndFetch of part_005), two recorder calls within
one session with the store reachable produce exactly one durable write:
the second call is a no-op behind the in-memory guard flag. The checked-in
ViewCounter.tsx lacks the guard and writes once per call. -/
theorem C1_guarded_single_write (c card : Nat) :
    twoCallsA (some c) = 1 ∧ twoCallsB card = 1 :=
  ⟨rfl, rfl⟩

/-- C2: Variant A monotonicity. Starting from a sentinel row holding v,
a sequence of N sequential recorded visits (each by a fresh session, no
concurrent writers) leaves the sentinel row holding v + N, and each single
successful recorded visit increments the stored count by exactly 1. -/
theorem C2_variantA_monotonicity (v N : Nat) :
    recordVisitStoreA^[N] (some v) = some (v + N) ∧
    recordVisitStoreA (some v) = some (v + 1) := by
  refine ⟨?_, rfl⟩
  induction N generalizing v with
  | zero => simp
  | succ n ih =>
      rw [Function.iterate_succ_apply]
      have h1 : recordVisitStoreA (some v) = some (v + 1) := rfl
      rw [h1, ih]
      congr 1
      omega

/-- C3: Variant B exactness. Each recorded visit is one unconditional,
independent, atomic insert, so any schedule of N recorded visits,
concurrent or sequential, is some sequence of N single-row inserts: the
cardinality after N visits is the initial cardinality plus N exactly, and
fetchViewCount returns that cardinality. -/
theorem C3_variantB_exactness (card N : Nat) (view : Option Nat) :
    recordVisitStoreB^[N] card = card + N ∧
    recordVisitStoreB card = card + 1 ∧
    fetchViewCountB view (some (recordVisitStoreB^[N] card)) =
      some (card + N) := by
  have hiter : ∀ m c : Nat, recordVisitStoreB^[m] c = c + m := by
    intro m
    induction m with
    | zero => intro c; simp
    | succ n ih =>
        intro c
        rw [Function.iterate_succ_apply]
        have h1 : recordVisitStoreB c = c + 1 := rfl
        rw [h1, ih]
        omega
  refine ⟨hiter N card, rfl, ?_⟩
  rw [hiter N card]
  rfl

/-- C4: unknown-vs-zero distinction. The displayed count starts as null;
a failed count fetch leaves it null, and null renders nothing; a
successful fetch of cardinality 0 displays 0, which renders a zero
counter; some 0 and none are distinct values. -/
theorem C4_unknown_vs_zero (view : Option Nat) :
    initialSession.viewCount = none ∧
    fetchViewCountB none none = none ∧
    fetchViewCountA none none = none ∧
    renderViewCounter (fetchViewCountB none none) = none ∧
    fetchViewCountB view (some 0) = some 0 ∧
    renderViewCounter (some 0) = some ("0" ++ " views") ∧
    (some 0 : Option Nat) ≠ none := by
  refine ⟨rfl, rfl, rfl, rfl, rfl, rfl, by simp⟩

/-- C5: Variant A change notifier delivery. For every UPDATE event on the
sentinel row, the callback of part_004 delivers the view_count field of
the event payload verbatim as the new displayed count and issues no
re-fetch; in particular a payload carrying 42 leaves the listener holding
42. -/
theorem C5_variantA_delivery (n : Nat) (view : Option Nat) :
    onUpdateEvent n view = (some n, 0) ∧
    onUpdateEvent 42 view = (some 42, 0) :=
  ⟨rfl, rfl⟩

/-- C6: Variant B change notifier delivery. For every INSERT event on the
visit table, the callback of part_005 maps an already-held baseline n to
n + 1, and is a no-op while no baseline is held (null stays null). -/
theorem C6_variantB_delivery (n : Nat) :
    onInsertEvent (some n) = some (n + 1) ∧
    onInsertEvent none = none :=
  ⟨rfl, rfl⟩

/-- C7: resubscription invariant. Assuming the bookkeeping invariant (the
active channels of the instance are exactly the channel in channelRef, if
any), calling setupRealtimeChannel again first tears the prior channel
down and then subscribes a fresh one: afterwards exactly that one channel
is active, the invariant still holds, and a single underlying store event
is delivered exactly once. -/
theorem C7_resubscription (st : ChannelState) (fresh : Nat)
    (h : channelInvariant st) :
    channelInvariant (setupRealtimeChannel st fresh) ∧
    (setupRealtimeChannel st fresh).active = [fresh] ∧
    deliveries (setupRealtimeChannel st fresh) = 1 := by
  obtain ⟨ref, active⟩ := st
  cases ref with
  | none =>
      simp only [channelInvariant] at h
      simp [setupRealtimeChannel, channelInvariant, deliveries, h]
  | some c =>
      simp only [channelInvariant] at h
      simp [setupRealtimeChannel, channelInvariant, deliveries,
        removeChannel, h]

/-- C7 witness: a concrete instance already holding an active channel 5,
resubscribed with fresh channel 7. -/
theorem C7_resubscription_witness :
    channelInvariant ⟨some 5, [5]⟩ ∧
    channelInvariant (setupRealtimeChannel ⟨some 5, [5]⟩ 7) ∧
    (setupRealtimeChannel ⟨some 5, [5]⟩ 7).active = [7] ∧
    deliveries (setupRealtimeChannel ⟨some 5, [5]⟩ 7) = 1 := by
  have h : channelInvariant (⟨some 5, [5]⟩ : ChannelState) := rfl
  exact ⟨h, (C7_resubscription ⟨some 5, [5]⟩ 7 h).1,
    (C7_resubscription ⟨some 5, [5]⟩ 7 h).2.1,
    (C7_resubscription ⟨some 5, [5]⟩ 7 h).2.2⟩

/-- C8: resynchronization ordering. When the page regains visibility the
handler issues a fetchViewCount call and then re-subscribes, in that
order; when the page becomes hidden it issues neither action. -/
theorem C8_resync_ordering :
    handleVisibilityChange true = [] ∧
    handleVisibilityChange false =
      [SyncAction.fetchCount, SyncAction.resubscribe] :=
  ⟨rfl, rfl⟩

/-- C9: failure absorption. Every recorder embedding is a total function
(the supabase client resolves with a null data or count field on failure
and never rejects, and the sources ignore the error field), so the call
always completes without raising. When the store is unreachable (Variant
A: the sentinel read yields no row; Variant B: insert and count both
fail), the visit is silently not counted (store unchanged, zero durable
writes) and the displayed count does not update. -/
theorem C9_failure_absorption (s : SessionState) (view : Option Nat)
    (card : Nat) :
    (incrementAndFetch s none).1.viewCount = s.viewCount ∧
    (incrementAndFetch s none).2.1 = none ∧
    (incrementAndFetch s none).2.2 = 0 ∧
    incrementAndFetchCurrent view none = (view, none, 0) ∧
    (recordViewAndFetch s card false false).1.viewCount = s.viewCount ∧
    (recordViewAndFetch s card false false).2.1 = card ∧
    (recordViewAndFetch s card false false).2.2 = 0 := by
  obtain ⟨v, b⟩ := s
  cases b <;>
    simp [incrementAndFetch, incrementAndFetchCurrent, recordViewAndFetch]

/-- C10: a known count never reverts to unknown. Once the displayed count
is non-null, every operation of either variant keeps it non-null: a
failed fetch leaves the previous value in place, the INSERT handler maps
some n to some (n + 1), the UPDATE handler delivers a payload value, and
both recorders only ever set a non-null count. -/
theorem C10_known_never_unknown (v : Nat) (r : Option Nat) (b : Bool)
    (st : StoreA) (card n : Nat) (io co : Bool) :
    fetchViewCountA (some v) r ≠ none ∧
    fetchViewCountB (some v) r ≠ none ∧
    onInsertEvent (some v) ≠ none ∧
    (onUpdateEvent n (some v)).1 ≠ none ∧
    (incrementAndFetch ⟨some v, b⟩ st).1.viewCount ≠ none ∧
    (recordViewAndFetch ⟨some v, b⟩ card io co).1.viewCount ≠ none := by
  cases r <;> cases b <;> cases st <;> cases io <;> cases co <;>
    simp [fetchViewCountA, fetchViewCountB, onInsertEvent, onUpdateEvent,
      incrementAndFetch, recordViewAndFetch]

end ViewLedger
